import Mathlib

/-!
Verification of the magtag-mqtt-stopwatch program.

This file gives a shallow embedding of the decision logic of the
repository's two program variants:

* `src/src/code.py` — the `MagTagStopwatch` class (reference-timestamp
  slots, elapsed-duration decomposition and formatting, idempotent
  display refresh), the `LEDS` indicator state machine, and the
  module-level MQTT polling loop;
* `src/code.py` — the older variant whose `main` function contains the
  same polling loop but ends the session (`return`) when reconnecting
  fails.

Machine integers are embedded as `Int` (Python integers are unbounded),
the neopixel brightness (a Python float compared only against constants,
never combined arithmetically) as `ℚ`, instants as microsecond counts,
and fallible operations as `Option`.  Side effects (neopixel writes,
display `set_text` calls) are reified as event lists so that frame
conditions ("no hardware write") are statements about traces.
-/

/-- An instant, embedded as microseconds on a linear local-time axis
(`adafruit_datetime.datetime` values with the fixed configured offset
applied; the program only ever subtracts two instants and reads the
hour-of-day field). -/
structure DateTime where
  micros : Int
deriving DecidableEq

/-- Hour-of-day of an instant, as `datetime.hour` reads it: the number
of whole hours since midnight, reduced mod 24. -/
def DateTime.hour (t : DateTime) : Int :=
  (t.micros.fdiv 3600000000).emod 24

/-- Builds the instant `day`, `hour`:`minute`:`second` on the local-time
axis, `day` counting days from the (arbitrary) epoch midnight. -/
def mkDateTime (day hour minute second : Int) : DateTime :=
  ⟨(((day * 24 + hour) * 60 + minute) * 60 + second) * 1000000⟩

/-- The optional configuration values resolved once at startup
(`refresh_int_mins_val`, `leds_on_mins_threshold_val`,
`sleep_daily_before_hour_val`, `backlight_brightness_val` in
`src/src/code.py`). -/
structure Config where
  refresh_int_mins : Int
  leds_on_mins_threshold : Int
  sleep_daily_before_hour : Int
  backlight_brightness : ℚ
deriving DecidableEq

/-- The defaults of `src/src/code.py`: `REFRESH_INT_MINS_DEFAULT = 1`,
`LEDS_ON_MINS_THRESHOLD_DEFAULT = -1`,
`SLEEP_DAILY_BEFORE_HOUR_DEFAULT = 24`,
`BACKLIGHT_BRIGHTNESS_DEFAULT = 0.0`. -/
def defaultConfig : Config :=
  { refresh_int_mins := 1
    leds_on_mins_threshold := -1
    sleep_daily_before_hour := 24
    backlight_brightness := 0 }

/-- `int(delta_time.total_seconds())` of `timedelta_to_hours_minutes`:
the exact value of `total_seconds()` on a delta of `delta_micros`
microseconds is `delta_micros / 10^6`, and Python `int()` truncates it
toward zero. -/
def timedelta_total_seconds_int (delta_micros : Int) : Int :=
  delta_micros.tdiv 1000000

/-- `MagTagStopwatch.timedelta_to_hours_minutes` of `src/src/code.py`,
on a delta of `delta_micros` microseconds:
`total_seconds = int(delta_time.total_seconds())`;
`hours = total_seconds // (60 * 60)` (Python floor division);
`remaining_seconds = total_seconds - hours * 60 * 60`;
`minutes = remaining_seconds // 60`. -/
def timedelta_to_hours_minutes (delta_micros : Int) : Int × Int :=
  let total_seconds := timedelta_total_seconds_int delta_micros
  let hours := total_seconds.fdiv (60 * 60)
  let remaining_seconds := total_seconds - hours * (60 * 60)
  let minutes := remaining_seconds.fdiv 60
  (hours, minutes)

/-- Python string formatting with format spec `02` on an integer: pad
with zeros on the left to a minimum width of 2 (a sign already counts
toward the width, and every negative integer prints with at least two
characters, so only a single bare digit ever gets padded). -/
def py02 (n : Int) : String :=
  let s := toString n
  if s.length < 2 then "0" ++ s else s

/-- The f-string of `refresh_display`'s duration formatting,
`f"{hours}:{minutes:02}"` written without braces here. -/
def fmt_hm (hours minutes : Int) : String :=
  toString hours ++ ":" ++ py02 minutes

/-- The formatted elapsed duration of one slot: `time_now - past`
decomposed by `timedelta_to_hours_minutes` and formatted `H:MM`. -/
def delta_str (time_now past : DateTime) : String :=
  let hm := timedelta_to_hours_minutes (time_now.micros - past.micros)
  fmt_hm hm.1 hm.2

/-- The three indicator states of class `LEDS`. -/
inductive LedStatus
  | OFF
  | ALERT
  | BACKLIGHT
deriving DecidableEq

/-- The neopixel hardware surface written by `LEDS.check`
(`peripherals.neopixel_disable`, `peripherals.neopixels.brightness`,
`peripherals.neopixels.fill`). -/
structure Peripherals where
  neopixel_disable : Bool
  brightness : ℚ
  fill : Nat × Nat × Nat
deriving DecidableEq

/-- One hardware write performed by `LEDS.check`. -/
inductive HWEvent
  | setDisable (b : Bool)
  | setBrightness (q : ℚ)
  | setFill (c : Nat × Nat × Nat)
deriving DecidableEq

/-- The mutable state of a `LEDS` instance: the `status` field plus the
peripherals it drives. -/
structure LedsState where
  status : LedStatus
  periph : Peripherals
deriving DecidableEq

/-- `LEDS.should_leds_alert`: the chained comparison
`total_minutes >= leds_on_mins_threshold_val >= 0 and
time_now.hour >= sleep_daily_before_hour_val`. -/
def should_leds_alert (cfg : Config) (time_now : DateTime)
    (total_minutes : Int) : Bool :=
  decide (total_minutes ≥ cfg.leds_on_mins_threshold ∧
    cfg.leds_on_mins_threshold ≥ 0 ∧
    time_now.hour ≥ cfg.sleep_daily_before_hour)

/-- `LEDS.should_leds_backlight`: `backlight_brightness_val > 0.0`. -/
def should_leds_backlight (cfg : Config) : Bool :=
  decide (cfg.backlight_brightness > 0)

/-- `LEDS.check` of `src/src/code.py`: decide the desired state from the
`should_leds_*` predicates, and only when it differs from the current
`status` update `status` and write the hardware (ALERT: enable, full
brightness, green fill; BACKLIGHT: enable, configured brightness, white
fill; OFF: disable).  Returns the new state and the trace of hardware
writes performed. -/
def LEDS.check (cfg : Config) (st : LedsState) (time_now : DateTime)
    (total_minutes : Int) : LedsState × List HWEvent :=
  if should_leds_alert cfg time_now total_minutes then
    if st.status ≠ .ALERT then
      ({ status := .ALERT,
         periph := { neopixel_disable := false, brightness := 1,
                     fill := (0, 0xFF, 0) } },
       [.setDisable false, .setBrightness 1, .setFill (0, 0xFF, 0)])
    else (st, [])
  else if should_leds_backlight cfg then
    if st.status ≠ .BACKLIGHT then
      ({ status := .BACKLIGHT,
         periph := { neopixel_disable := false,
                     brightness := cfg.backlight_brightness,
                     fill := (0xFF, 0xFF, 0xFF) } },
       [.setDisable false, .setBrightness cfg.backlight_brightness,
        .setFill (0xFF, 0xFF, 0xFF)])
    else (st, [])
  else
    if st.status ≠ .OFF then
      ({ status := .OFF,
         periph := { st.periph with neopixel_disable := true } },
       [.setDisable true])
    else (st, [])

/-- The pure decision implicit in `LEDS.check`'s branch structure (spec
§4.2 steps 1–3): ALERT if `should_leds_alert`, else BACKLIGHT if
`should_leds_backlight`, else OFF. -/
def ledsDecision (cfg : Config) (time_now : DateTime)
    (total_minutes : Int) : LedStatus :=
  if should_leds_alert cfg time_now total_minutes then .ALERT
  else if should_leds_backlight cfg then .BACKLIGHT
  else .OFF

/-- Iterated `LEDS.check` over a list of `(time_now, total_minutes)`
inputs, collecting per-call hardware-write traces. -/
def runChecks (cfg : Config) (st : LedsState) :
    List (DateTime × Int) → LedsState × List (List HWEvent)
  | [] => (st, [])
  | p :: rest =>
    let r := LEDS.check cfg st p.1 p.2
    let rest_r := runChecks cfg r.1 rest
    (rest_r.1, r.2 :: rest_r.2)

/-- The mutable state of a `MagTagStopwatch` instance:
`_past_time_objs` (a Python list, initially `[time_now, None]`),
`_current_displayed_text` (initially `"0:00"`), and the `LEDS`
instance. -/
structure StopwatchState where
  past_time_objs : List (Option DateTime)
  current_displayed_text : String
  leds : LedsState
deriving DecidableEq

/-- The state built by `MagTagStopwatch.__init__`: slot 0 holds the
startup time, slot 1 is `None`, the displayed text is `"0:00"`, the
LEDs start `OFF`. -/
def initState (time_now : DateTime) (periph : Peripherals) :
    StopwatchState :=
  { past_time_objs := [some time_now, none]
    current_displayed_text := "0:00"
    leds := { status := .OFF, periph := periph } }

/-- Python list item assignment `l[idx] = v`: a negative index counts
from the end (`idx + len(l)`); an index still out of range raises
`IndexError` (modelled as `none`), otherwise the element is replaced. -/
def pyListSet {α : Type} (l : List α) (idx : Int) (v : α) :
    Option (List α) :=
  let j : Int := if idx < 0 then idx + l.length else idx
  if 0 ≤ j ∧ j < l.length then some (l.set j.toNat v) else none

/-- The storage step of `MagTagStopwatch.set_past_time`:
`self._past_time_objs[time_idx] = past_time`.  `none` models the
`IndexError` raised on an out-of-range index, in which case nothing is
stored. -/
def set_past_time_store (st : StopwatchState) (past_time : DateTime)
    (time_idx : Int) : Option StopwatchState :=
  match pyListSet st.past_time_objs time_idx (some past_time) with
  | some objs => some { st with past_time_objs := objs }
  | none => none

/-- One `set_text(text, index, auto_refresh)` call on the MagTag
display. -/
structure DisplayWrite where
  text : String
  index : Nat
  auto_refresh : Bool
deriving DecidableEq

/-- The result of one `refresh_display` call: the updated object state,
the display writes performed, and the neopixel writes performed by the
embedded `LEDS.check` call. -/
structure RenderResult where
  state : StopwatchState
  display_writes : List DisplayWrite
  led_events : List HWEvent
deriving DecidableEq

/-- `MagTagStopwatch.refresh_display` of `src/src/code.py`, with the
clock sample passed in as `time_now`.  Computes the slot-0 duration
string, runs `LEDS.check`, appends the slot-1 duration string when
`_should_show_2_times()` (slot 1 non-`None`), joins with `" "`, and
performs display writes only when the joined string differs from
`_current_displayed_text` (two-slot layout: clear region 0, write
regions 1 and 2; single-slot layout: write region 0, clear regions 1
and 2).  `none` models the exception raised when slot 0 is `None`
(subtracting `None`) or the list does not have both slots. -/
def refresh_display (cfg : Config) (st : StopwatchState)
    (time_now : DateTime) : Option RenderResult :=
  match st.past_time_objs.get? 0 with
  | some (some past0) =>
    let hm1 := timedelta_to_hours_minutes (time_now.micros - past0.micros)
    let str1 := delta_str time_now past0
    let ledsRes := LEDS.check cfg st.leds time_now (hm1.1 * 60 + hm1.2)
    match st.past_time_objs.get? 1 with
    | some (some past1) =>
      let str2 := delta_str time_now past1
      let joined := str1 ++ " " ++ str2
      if joined ≠ st.current_displayed_text then
        some { state := { st with current_displayed_text := joined,
                                  leds := ledsRes.1 }
               display_writes := [⟨"", 0, false⟩, ⟨str1, 1, false⟩,
                                  ⟨str2, 2, true⟩]
               led_events := ledsRes.2 }
      else
        some { state := { st with leds := ledsRes.1 }
               display_writes := []
               led_events := ledsRes.2 }
    | some none =>
      let joined := str1
      if joined ≠ st.current_displayed_text then
        some { state := { st with current_displayed_text := joined,
                                  leds := ledsRes.1 }
               display_writes := [⟨str1, 0, false⟩, ⟨"", 1, false⟩,
                                  ⟨"", 2, true⟩]
               led_events := ledsRes.2 }
      else
        some { state := { st with leds := ledsRes.1 }
               display_writes := []
               led_events := ledsRes.2 }
    | none => none
  | _ => none

/-- `MagTagStopwatch.set_past_time(past_time, time_idx,
auto_refresh_display)`: store the timestamp, then refresh the display
when `auto_refresh_display` is set (the clock sample of that refresh is
`now`). -/
def set_past_time (cfg : Config) (st : StopwatchState)
    (past_time : DateTime) (time_idx : Int) (auto_refresh_display : Bool)
    (now : DateTime) : Option RenderResult :=
  match set_past_time_store st past_time time_idx with
  | none => none
  | some st1 =>
    if auto_refresh_display then refresh_display cfg st1 now
    else some { state := st1, display_writes := [], led_events := [] }

/-- Outcome of one external call made by the polling loop. -/
inductive CallResult
  | ok
  | raises
deriving DecidableEq

/-- The outcomes the environment hands one polling-loop iteration: the
`mqtt_client.is_connected()` probe, the blocking `mqtt_client.loop(10)`
call, and the `mqtt_client.reconnect(resub_topics=False)` call (each
consumed only if the iteration reaches it). -/
structure PollInput where
  probe : CallResult
  loop_call : CallResult
  reconnect_call : CallResult
deriving DecidableEq

/-- How one polling-loop iteration ends: go around the `while True`
again, or leave the loop ending the session. -/
inductive IterExit
  | continue_polling
  | session_end
deriving DecidableEq

/-- Observable outcome of one polling-loop iteration: how many
`reconnect` calls were attempted, the `resub_topics` argument passed
(if attempted), whether the peripherals were deinitialized, and how the
iteration ends. -/
structure IterResult where
  reconnect_attempts : Nat
  resub_topics : Option Bool
  deinit_called : Bool
  next : IterExit
deriving DecidableEq

/-- One iteration of the module-level polling loop of
`src/src/code.py` (lines 298–327): a probe failure → `continue`; a
`loop` failure → one `reconnect(resub_topics=False)` attempt, and if
that also raises, `mtStopwatch.deinit_peripherals()`; in every case the
iteration then executes `continue`, staying in the polling loop. -/
def pollIterModule (inp : PollInput) : IterResult :=
  match inp.probe with
  | .raises => ⟨0, none, false, .continue_polling⟩
  | .ok =>
    match inp.loop_call with
    | .ok => ⟨0, none, false, .continue_polling⟩
    | .raises =>
      match inp.reconnect_call with
      | .ok => ⟨1, some false, false, .continue_polling⟩
      | .raises => ⟨1, some false, true, .continue_polling⟩

/-- One iteration of the polling loop inside `main` of `src/code.py`
(the older variant): identical, except that when `reconnect` raises the
code runs `magtag.peripherals.deinit()` and then `return`s, ending the
session. -/
def pollIterMain (inp : PollInput) : IterResult :=
  match inp.probe with
  | .raises => ⟨0, none, false, .continue_polling⟩
  | .ok =>
    match inp.loop_call with
    | .ok => ⟨0, none, false, .continue_polling⟩
    | .raises =>
      match inp.reconnect_call with
      | .ok => ⟨1, some false, false, .continue_polling⟩
      | .raises => ⟨1, some false, true, .session_end⟩

/-- Runs polling-loop iterations against a script of environment
outcomes, stopping when an iteration ends the session (or the script
runs out).  Returns the outcomes of the iterations actually executed,
so the length of the result counts how often the polling loop body was
entered. -/
def runPolling (iter : PollInput → IterResult) :
    List PollInput → List IterResult
  | [] => []
  | inp :: rest =>
    let r := iter inp
    match r.next with
    | .session_end => [r]
    | .continue_polling => r :: runPolling iter rest

/-! Concrete fixtures used by witness theorems. -/

/-- A concrete peripherals value (neopixels disabled, dark). -/
def periphW : Peripherals := ⟨true, 0, (0, 0, 0)⟩

/-- A concrete `LEDS` state currently `OFF`. -/
def ledsOffW : LedsState := ⟨.OFF, periphW⟩

/-- A concrete `LEDS` state currently `BACKLIGHT`. -/
def ledsBackW : LedsState := ⟨.BACKLIGHT, periphW⟩

/-- A concrete freshly initialized stopwatch state (startup time 0). -/
def stW : StopwatchState := initState ⟨0⟩ periphW

/-- One hour after the epoch instant. -/
def nowW : DateTime := ⟨3600 * 1000000⟩

/-- A concrete instant whose hour-of-day is 12. -/
def nowNoonW : DateTime := mkDateTime 0 12 0 0

/-- A configuration with every indicator path enabled
(`leds_on_mins_threshold = 150`, `sleep_daily_before_hour = 8`,
`backlight_brightness = 1/10`). -/
def cfgAlertW : Config := ⟨1, 150, 8, 1/10⟩

/-- Like `cfgAlertW` but with `backlight_brightness = 0.0`. -/
def cfgZeroBW : Config := ⟨1, 150, 8, 0⟩

/-- Like `cfgAlertW` but with `sleep_daily_before_hour = 24`. -/
def cfgH24W : Config := ⟨1, 150, 24, 1/10⟩

/-! Helper lemmas about `LEDS.check`. -/

/-- When the desired state already equals the current `status`,
`LEDS.check` changes nothing and writes nothing. -/
theorem check_noop (cfg : Config) (st : LedsState) (now : DateTime)
    (tm : Int) (h : ledsDecision cfg now tm = st.status) :
    LEDS.check cfg st now tm = (st, []) := by
  unfold ledsDecision at h
  unfold LEDS.check
  by_cases ha : should_leds_alert cfg now tm
  · simp only [ha, if_true] at h ⊢
    rw [← h]
    simp
  · by_cases hb : should_leds_backlight cfg
    · simp only [ha, hb, if_true, if_false] at h ⊢
      rw [← h]
      simp
    · simp only [ha, hb, if_false] at h ⊢
      rw [← h]
      simp

/-- After any `LEDS.check` call the stored `status` is exactly the
desired decision. -/
theorem check_status (cfg : Config) (st : LedsState) (now : DateTime)
    (tm : Int) :
    (LEDS.check cfg st now tm).1.status = ledsDecision cfg now tm := by
  unfold LEDS.check ledsDecision
  by_cases ha : should_leds_alert cfg now tm
  · simp only [ha, if_true]
    by_cases hc : st.status = LedStatus.ALERT <;> simp [hc]
  · by_cases hb : should_leds_backlight cfg
    · simp only [ha, hb, if_true, if_false]
      by_cases hc : st.status = LedStatus.BACKLIGHT <;> simp [hc]
    · simp only [ha, hb, if_false]
      by_cases hc : st.status = LedStatus.OFF <;> simp [hc]

/-- Iterating `LEDS.check` from `OFF` over inputs whose decisions are
all `OFF` changes nothing and emits only empty traces. -/
theorem runChecks_off (cfg : Config) (st : LedsState)
    (hst : st.status = .OFF) (inputs : List (DateTime × Int))
    (hall : ∀ p ∈ inputs, ledsDecision cfg p.1 p.2 = .OFF) :
    runChecks cfg st inputs = (st, inputs.map fun _ => []) := by
  induction inputs with
  | nil => rfl
  | cons p rest ih =>
    have hd : ledsDecision cfg p.1 p.2 = st.status := by
      rw [hst]
      exact hall p (List.mem_cons_self p rest)
    have hc := check_noop cfg st p.1 p.2 hd
    have ih' := ih fun q hq => hall q (List.mem_cons_of_mem p hq)
    simp [runChecks, hc, ih']

/-- C4: the indicator decision selects ALERT exactly when
`elapsed_minutes >= alert_minutes_threshold`, the threshold is
non-negative and `time_now.hour >= alert_earliest_hour`; otherwise
BACKLIGHT exactly when the backlight brightness is positive, otherwise
OFF — and when the ALERT and BACKLIGHT conditions hold simultaneously
the resulting state is ALERT, never BACKLIGHT. -/
theorem C4_indicator_decision (cfg : Config) (st : LedsState)
    (now : DateTime) (tm : Int) :
    ((LEDS.check cfg st now tm).1.status =
      if tm ≥ cfg.leds_on_mins_threshold ∧ cfg.leds_on_mins_threshold ≥ 0 ∧
          now.hour ≥ cfg.sleep_daily_before_hour then LedStatus.ALERT
      else if cfg.backlight_brightness > 0 then LedStatus.BACKLIGHT
      else LedStatus.OFF) ∧
    ((tm ≥ cfg.leds_on_mins_threshold ∧ cfg.leds_on_mins_threshold ≥ 0 ∧
        now.hour ≥ cfg.sleep_daily_before_hour) →
      cfg.backlight_brightness > 0 →
      (LEDS.check cfg st now tm).1.status = LedStatus.ALERT) := by
  have hs := check_status cfg st now tm
  constructor
  · rw [hs]
    unfold ledsDecision should_leds_alert should_leds_backlight
    by_cases ha : tm ≥ cfg.leds_on_mins_threshold ∧
        cfg.leds_on_mins_threshold ≥ 0 ∧
        now.hour ≥ cfg.sleep_daily_before_hour <;>
      by_cases hb : cfg.backlight_brightness > 0 <;> simp [ha, hb]
  · intro ha _
    rw [hs]
    unfold ledsDecision should_leds_alert
    simp [ha]

/-- C4 witness: with threshold 150, earliest hour 8 and positive
backlight brightness, 500 elapsed minutes at noon yield ALERT. -/
theorem C4_witness :
    (LEDS.check cfgAlertW ledsOffW nowNoonW 500).1.status =
      LedStatus.ALERT :=
  (C4_indicator_decision cfgAlertW ledsOffW nowNoonW 500).2 (by decide)
    (by norm_num [cfgAlertW])

/-- C5: duration arithmetic truncates the delta to whole seconds before
decomposing (replacing the delta by its truncated-seconds value changes
nothing), and a negative duration is not clamped: a reference 5 minutes
in the future decomposes to hours `-1` (floor truncation, so negative)
with minutes `55`, rendering as the negative string `-1:55`. -/
theorem C5_negative_duration :
    (∀ delta_micros : Int,
      timedelta_to_hours_minutes delta_micros =
        timedelta_to_hours_minutes
          (timedelta_total_seconds_int delta_micros * 1000000)) ∧
    timedelta_to_hours_minutes (-300 * 1000000) = (-1, 55) ∧
    (timedelta_to_hours_minutes (-300 * 1000000)).1 < 0 ∧
    fmt_hm (-1) 55 = "-1:55" := by
  refine ⟨?_, by decide, by decide, by decide⟩
  intro m
  unfold timedelta_to_hours_minutes timedelta_total_seconds_int
  rw [Int.mul_tdiv_cancel _ (by norm_num)]

/-- C6: indicator hardware writes happen only on a state transition —
when the desired state equals the currently applied `status`, `check`
leaves the state untouched and writes nothing; and over any sequence of
calls whose decisions are all `OFF`, no call after the first emits any
hardware write (in particular the disable write is never repeated). -/
theorem C6_transition_suppression (cfg : Config) (st : LedsState)
    (now : DateTime) (tm : Int) (inputs : List (DateTime × Int)) :
    (ledsDecision cfg now tm = st.status →
      LEDS.check cfg st now tm = (st, [])) ∧
    ((∀ p ∈ inputs, ledsDecision cfg p.1 p.2 = LedStatus.OFF) →
      ∀ tr ∈ (runChecks cfg st inputs).2.drop 1, tr = []) := by
  constructor
  · exact check_noop cfg st now tm
  · intro hall
    match inputs with
    | [] => simp [runChecks]
    | p :: rest =>
      have h1 : ((LEDS.check cfg st p.1 p.2).1).status = LedStatus.OFF := by
        rw [check_status]
        exact hall p (List.mem_cons_self p rest)
      have hrest := runChecks_off cfg (LEDS.check cfg st p.1 p.2).1 h1 rest
        (fun q hq => hall q (List.mem_cons_of_mem p hq))
      intro tr htr
      simp only [runChecks, hrest, List.drop_succ_cons, List.drop_zero] at htr
      rcases List.mem_map.mp htr with ⟨q, _, hq⟩
      exact hq.symm

/-- C6 witness: a no-op call at an already-matching state, and a
two-call OFF sequence from `BACKLIGHT` whose second trace is empty. -/
theorem C6_witness :
    LEDS.check defaultConfig ledsOffW nowW 5 = (ledsOffW, []) ∧
    ∀ tr ∈ (runChecks defaultConfig ledsBackW
        [(nowW, 5), (⟨0⟩, 7)]).2.drop 1, tr = [] :=
  ⟨(C6_transition_suppression defaultConfig ledsOffW nowW 5 []).1
      (by decide),
   (C6_transition_suppression defaultConfig ledsBackW nowW 5
      [(nowW, 5), (⟨0⟩, 7)]).2 (by decide)⟩

/-- C7: disable paths — a threshold of `-1` means the state after any
`check` is never ALERT, a backlight brightness of `0.0` means it is
never BACKLIGHT, and an earliest hour of 24 makes the ALERT condition
unsatisfiable for every instant whose hour is in 0–23. -/
theorem C7_disable_paths (cfg : Config) (st : LedsState)
    (now : DateTime) (tm : Int) :
    (cfg.leds_on_mins_threshold = -1 →
      (LEDS.check cfg st now tm).1.status ≠ LedStatus.ALERT) ∧
    (cfg.backlight_brightness = 0 →
      (LEDS.check cfg st now tm).1.status ≠ LedStatus.BACKLIGHT) ∧
    (cfg.sleep_daily_before_hour = 24 → 0 ≤ now.hour → now.hour < 24 →
      should_leds_alert cfg now tm = false) := by
  refine ⟨?_, ?_, ?_⟩
  · intro hthr
    rw [check_status]
    have ha : should_leds_alert cfg now tm = false := by
      unfold should_leds_alert
      simp [hthr]
    unfold ledsDecision
    rw [ha]
    by_cases hb : should_leds_backlight cfg <;> simp [hb]
  · intro hbb
    rw [check_status]
    have hb : should_leds_backlight cfg = false := by
      unfold should_leds_backlight
      simp [hbb]
    unfold ledsDecision
    rw [hb]
    by_cases ha : should_leds_alert cfg now tm <;> simp [ha]
  · intro hsd _ hlt
    unfold should_leds_alert
    simp only [decide_eq_false_iff_not]
    intro h
    rw [hsd] at h
    omega

/-- C7 witness: one concrete instance of each disable path. -/
theorem C7_witness :
    (LEDS.check defaultConfig ledsOffW nowNoonW 10000).1.status ≠
      LedStatus.ALERT ∧
    (LEDS.check cfgZeroBW ledsOffW nowNoonW 10000).1.status ≠
      LedStatus.BACKLIGHT ∧
    should_leds_alert cfgH24W nowNoonW 10000 = false :=
  ⟨(C7_disable_paths defaultConfig ledsOffW nowNoonW 10000).1 rfl,
   (C7_disable_paths cfgZeroBW ledsOffW nowNoonW 10000).2.1 rfl,
   (C7_disable_paths cfgH24W ledsOffW nowNoonW 10000).2.2 rfl (by decide)
     (by decide)⟩

/-- C1: on the probe-ok, loop-raises, reconnect-raises script the
module-level polling loop of `src/src/code.py` performs exactly one
reconnect attempt with `resub_topics=False` and deinitializes the
peripherals, but then continues polling — a further scripted iteration
is still executed, so the polling loop IS re-entered and no restart is
signalled; the older `main` variant of `src/code.py` instead ends the
session after the same single reconnect attempt. -/
theorem C1_escalation_eval :
    runPolling pollIterModule
        [⟨.ok, .raises, .raises⟩, ⟨.raises, .ok, .ok⟩] =
      [⟨1, some false, true, .continue_polling⟩,
       ⟨0, none, false, .continue_polling⟩] ∧
    runPolling pollIterMain
        [⟨.ok, .raises, .raises⟩, ⟨.raises, .ok, .ok⟩] =
      [⟨1, some false, true, .session_end⟩] := by
  constructor <;> rfl

/-- The joined duration text `refresh_display` compares against
`_current_displayed_text`, as a function of the slot list and the clock
sample (`none` when the computation would raise). -/
def joined_text (objs : List (Option DateTime)) (now : DateTime) :
    Option String :=
  match objs.get? 0 with
  | some (some past0) =>
    match objs.get? 1 with
    | some (some past1) =>
      some (delta_str now past0 ++ " " ++ delta_str now past1)
    | some none => some (delta_str now past0)
    | none => none
  | _ => none

/-- A successful `refresh_display` leaves the slot list unchanged and
leaves `_current_displayed_text` equal to the joined duration text of
the call. -/
theorem refresh_spec (cfg : Config) (st : StopwatchState) (now : DateTime)
    (r : RenderResult) (h : refresh_display cfg st now = some r) :
    r.state.past_time_objs = st.past_time_objs ∧
    joined_text st.past_time_objs now =
      some r.state.current_displayed_text := by
  unfold refresh_display at h
  unfold joined_text
  rcases h0 : st.past_time_objs.get? 0 with _ | op0 <;> rw [h0] at h
  · simp at h
  · rcases op0 with _ | past0
    · simp at h
    · rcases h1 : st.past_time_objs.get? 1 with _ | op1 <;> rw [h1] at h
      · simp at h
      · rcases op1 with _ | past1
        · dsimp only [] at h
          split at h
          · rcases Option.some.inj h with rfl
            simp
          · rcases Option.some.inj h with rfl
            rename_i hne
            simp at hne
            simp [hne]
        · dsimp only [] at h
          split at h
          · rcases Option.some.inj h with rfl
            simp
          · rcases Option.some.inj h with rfl
            rename_i hne
            simp at hne
            simp [hne]

/-- When the joined duration text already equals
`_current_displayed_text`, `refresh_display` succeeds and performs no
display write. -/
theorem refresh_noop (cfg : Config) (st : StopwatchState) (now : DateTime)
    (hjt : joined_text st.past_time_objs now =
      some st.current_displayed_text) :
    ∃ r, refresh_display cfg st now = some r ∧ r.display_writes = [] := by
  unfold joined_text at hjt
  unfold refresh_display
  rcases h0 : st.past_time_objs.get? 0 with _ | op0 <;> rw [h0] at hjt
  · simp at hjt
  · rcases op0 with _ | past0
    · simp at hjt
    · rcases h1 : st.past_time_objs.get? 1 with _ | op1 <;> rw [h1] at hjt
      · simp at hjt
      · rcases op1 with _ | past1
        · rcases Option.some.inj hjt with heq
          dsimp only []
          rw [if_neg (by simp [heq])]
          exact ⟨_, rfl, rfl⟩
        · rcases Option.some.inj hjt with heq
          dsimp only []
          rw [if_neg (by simp [heq])]
          exact ⟨_, rfl, rfl⟩

/-- C3: `refresh_display` writes to the display only when the newly
formatted string differs from the previously rendered one — after any
successful call, an immediate second call with the same clock sample
succeeds and performs no display write. -/
theorem C3_render_idempotent (cfg : Config) (st : StopwatchState)
    (now : DateTime) (r1 : RenderResult)
    (h : refresh_display cfg st now = some r1) :
    ∃ r2, refresh_display cfg r1.state now = some r2 ∧
      r2.display_writes = [] := by
  obtain ⟨hpast, htext⟩ := refresh_spec cfg st now r1 h
  exact refresh_noop cfg r1.state now (by rw [hpast]; exact htext)

/-- C3 witness result of the first render: the fresh state one hour
after startup renders `1:00` to the primary region. -/
def r1W : RenderResult :=
  { state := { past_time_objs := [some ⟨0⟩, none]
               current_displayed_text := "1:00"
               leds := ledsOffW }
    display_writes := [⟨"1:00", 0, false⟩, ⟨"", 1, false⟩, ⟨"", 2, true⟩]
    led_events := [] }

/-- C3 witness: after rendering `1:00`, rendering again at the same
instant performs no display write. -/
theorem C3_witness :
    ∃ r2, refresh_display defaultConfig r1W.state nowW = some r2 ∧
      r2.display_writes = [] :=
  C3_render_idempotent defaultConfig stW nowW r1W (by decide)

/-- C8: when a successful `refresh_display` does write (the string
changed), then in single-slot mode (slot 1 `None`) it writes the one
formatted string to primary region 0 and clears supplementary regions
1 and 2, and in dual-slot mode it clears region 0, writes the two
formatted strings to regions 1 and 2, and stores the space-separated
join of both strings as the text compared for idempotence. -/
theorem C8_dual_slot (cfg : Config) (st : StopwatchState)
    (now : DateTime) (past0 : DateTime) (r : RenderResult)
    (h0 : st.past_time_objs.get? 0 = some (some past0))
    (h : refresh_display cfg st now = some r)
    (hw : r.display_writes ≠ []) :
    (st.past_time_objs.get? 1 = some none →
      r.display_writes = [⟨delta_str now past0, 0, false⟩,
        ⟨"", 1, false⟩, ⟨"", 2, true⟩] ∧
      r.state.current_displayed_text = delta_str now past0) ∧
    (∀ past1, st.past_time_objs.get? 1 = some (some past1) →
      r.display_writes = [⟨"", 0, false⟩,
        ⟨delta_str now past0, 1, false⟩,
        ⟨delta_str now past1, 2, true⟩] ∧
      r.state.current_displayed_text =
        delta_str now past0 ++ " " ++ delta_str now past1) := by
  unfold refresh_display at h
  rw [h0] at h
  constructor
  · intro h1
    rw [h1] at h
    dsimp only [] at h
    split at h
    · rcases Option.some.inj h with rfl
      simp
    · rcases Option.some.inj h with rfl
      exact absurd rfl hw
  · intro past1 h1
    rw [h1] at h
    dsimp only [] at h
    split at h
    · rcases Option.some.inj h with rfl
      simp
    · rcases Option.some.inj h with rfl
      exact absurd rfl hw

/-- C8 witness: the first render of the fresh state (single mode, slot
1 `None`) writes `1:00` to region 0 and clears regions 1 and 2. -/
theorem C8_witness :
    r1W.display_writes = [⟨delta_str nowW ⟨0⟩, 0, false⟩,
      ⟨"", 1, false⟩, ⟨"", 2, true⟩] ∧
    r1W.state.current_displayed_text = delta_str nowW ⟨0⟩ :=
  (C8_dual_slot defaultConfig stW nowW ⟨0⟩ r1W (by decide) (by decide)
    (by decide)).1 (by decide)

/-- C2 counterexample: the slot index `-1` lies outside the supported
range of 0 and 1, yet `set_past_time`'s storage step does not fail — by
Python negative indexing it stores the timestamp into slot 1. -/
theorem C2_counterexample :
    ((-1 : Int) ≠ 0 ∧ (-1 : Int) ≠ 1) ∧
    set_past_time_store stW ⟨5⟩ (-1) =
      some { past_time_objs := [some ⟨0⟩, some ⟨5⟩]
             current_displayed_text := "0:00"
             leds := ledsOffW } := by decide

/-- C2 amended: on a two-slot list, the storage step of
`set_past_time` fails (raises `IndexError`) and stores nothing exactly
for slot indices outside `-2 ≤ idx ≤ 1`; for index 0 or 1 it stores the
given timestamp into that slot, leaving the other slot, the displayed
text and the LEDs untouched (negative indices `-1`/`-2` alias slots
1/0 by Python indexing). -/
theorem C2_set_reference_amended (st : StopwatchState) (t : DateTime)
    (idx : Int) (hlen : st.past_time_objs.length = 2) :
    ((idx < -2 ∨ 2 ≤ idx) → set_past_time_store st t idx = none) ∧
    (0 ≤ idx → idx ≤ 1 →
      ∃ st', set_past_time_store st t idx = some st' ∧
        st'.past_time_objs.get? idx.toNat = some (some t) ∧
        st'.current_displayed_text = st.current_displayed_text ∧
        st'.leds = st.leds ∧
        ∀ j : Nat, j ≠ idx.toNat →
          st'.past_time_objs.get? j = st.past_time_objs.get? j) := by
  obtain ⟨a, b, hab⟩ := List.length_eq_two.mp hlen
  constructor
  · intro hout
    unfold set_past_time_store pyListSet
    rw [hab]
    have hcond : ¬(0 ≤ (if idx < 0 then
          idx + ([a, b] : List (Option DateTime)).length else idx) ∧
        (if idx < 0 then
          idx + ([a, b] : List (Option DateTime)).length else idx) <
          ([a, b] : List (Option DateTime)).length) := by
      simp only [List.length_cons, List.length_nil]
      split <;> omega
    rw [if_neg hcond]
  · intro hge hle
    have : idx = 0 ∨ idx = 1 := by omega
    rcases this with rfl | rfl
    · refine ⟨{ st with past_time_objs := [some t, b] }, ?_, by simp,
        by simp, by simp, ?_⟩
      · unfold set_past_time_store pyListSet
        rw [hab]
        norm_num
      · intro j hj
        rw [hab]
        match j with
        | 0 => exact absurd rfl hj
        | Nat.succ k => rfl
    · refine ⟨{ st with past_time_objs := [a, some t] }, ?_, by simp,
        by simp, by simp, ?_⟩
      · unfold set_past_time_store pyListSet
        rw [hab]
        norm_num
      · intro j hj
        rw [hab]
        match j with
        | 0 => rfl
        | 1 => exact absurd rfl hj
        | Nat.succ (Nat.succ k) => rfl

/-- C2 witness: storing a timestamp into slot 1 of a fresh state
succeeds and leaves slot 0, the text and the LEDs untouched. -/
theorem C2_witness :
    ∃ st', set_past_time_store stW ⟨7⟩ 1 = some st' ∧
      st'.past_time_objs.get? (1 : Int).toNat = some (some ⟨7⟩) ∧
      st'.current_displayed_text = stW.current_displayed_text ∧
      st'.leds = stW.leds ∧
      ∀ j : Nat, j ≠ (1 : Int).toNat →
        st'.past_time_objs.get? j = stW.past_time_objs.get? j :=
  (C2_set_reference_amended stW ⟨7⟩ 1 (by decide)).2 (by decide) (by decide)

/-- C9: for a reference at 10:28:42 and a current time of 12:29:00 on
the same day (the spec's `2021-04-19` with fixed offset `-04:00`; the
calendar day cancels in the subtraction, so the fact is proved for
every day number), the elapsed duration decomposes to 2 hours and 0
minutes and formats as the string `2:00`. -/
theorem C9_duration_format (d : Int) :
    timedelta_to_hours_minutes
        ((mkDateTime d 12 29 0).micros - (mkDateTime d 10 28 42).micros) =
      (2, 0) ∧
    delta_str (mkDateTime d 12 29 0) (mkDateTime d 10 28 42) = "2:00" := by
  have hmic : (mkDateTime d 12 29 0).micros -
      (mkDateTime d 10 28 42).micros = 7218000000 := by
    simp only [mkDateTime]
    ring
  constructor
  · rw [hmic]
    decide
  · unfold delta_str
    rw [hmic]
    decide


/-- Every integer from 0 to 59 formats under `py02` as exactly two
characters, none of which is a minus sign. -/
theorem py02_small_digits :
    ∀ n : Nat, n < 60 → (py02 (n : Int)).length = 2 ∧
      ∀ c ∈ (py02 (n : Int)).toList, c ≠ Char.ofNat 45 := by decide

/-- The two-digit, sign-free rendering of any minutes value between 0
and 59. -/
theorem py02_two_digits (m : Int) (h0 : 0 ≤ m) (h59 : m ≤ 59) :
    (py02 m).length = 2 ∧ ∀ c ∈ (py02 m).toList, c ≠ Char.ofNat 45 := by
  have hn : m = ((m.toNat : Nat) : Int) := (Int.toNat_of_nonneg h0).symm
  rw [hn]
  exact py02_small_digits m.toNat (by omega)

/-- C10: for every duration, the decomposition keeps
`hours * 3600 ≤ t < hours * 3600 + 3600` for the truncated seconds `t`,
the minutes component is the floor quotient of the remainder by 60 and
lies between 0 and 59, and hence the formatted minutes field is exactly
two digits with no minus sign (any sign stays on the hours part). -/
theorem C10_minutes_invariant (delta_micros : Int) :
    (timedelta_to_hours_minutes delta_micros).1 * 3600 ≤
        timedelta_total_seconds_int delta_micros ∧
    timedelta_total_seconds_int delta_micros <
        (timedelta_to_hours_minutes delta_micros).1 * 3600 + 3600 ∧
    0 ≤ (timedelta_to_hours_minutes delta_micros).2 ∧
    (timedelta_to_hours_minutes delta_micros).2 ≤ 59 ∧
    (timedelta_to_hours_minutes delta_micros).2 =
      (timedelta_total_seconds_int delta_micros -
        (timedelta_to_hours_minutes delta_micros).1 * 3600).fdiv 60 ∧
    (py02 (timedelta_to_hours_minutes delta_micros).2).length = 2 ∧
    ∀ c ∈ (py02 (timedelta_to_hours_minutes delta_micros).2).toList,
      c ≠ Char.ofNat 45 := by
  have hf60 : ∀ a : Int, a.fdiv 60 = a / 60 := fun a =>
    Int.fdiv_eq_ediv a (by norm_num)
  have hf3600 : ∀ a : Int, a.fdiv (60 * 60) = a / 3600 := fun a => by
    rw [show ((60 : Int) * 60) = 3600 by norm_num]
    exact Int.fdiv_eq_ediv a (by norm_num)
  simp only [timedelta_to_hours_minutes, hf60, hf3600]
  norm_num
  generalize timedelta_total_seconds_int delta_micros = t
  have h0m : 0 ≤ (t - t / 3600 * 3600) / 60 := by omega
  have h59m : (t - t / 3600 * 3600) / 60 ≤ 59 := by omega
  obtain ⟨hlen, hchar⟩ := py02_two_digits _ h0m h59m
  exact ⟨by omega, by omega, h0m, h59m, hlen, hchar⟩
